import Mathlib

/-!
# Shallow embedding of `src/src/n-dhcp4-c-connection.c`

This file embeds the DHCPv4 client connection layer (socket state machine,
inbound dispatch/verification and outbound message construction) as executable
Lean definitions and proves properties of them.

System calls (socket creation, epoll registration, recv, close, shutdown) are
modelled by an oracle environment that fixes the outcome of each call and by an
explicit trace of the calls the code performs, so that registration /
release behavior is observable.  The opaque codec collaborator
(`NDhcp4Incoming` / `NDhcp4Outgoing`) is modelled as a BOOTP header plus a
sequence of `(option number, payload bytes)` pairs, exactly the interface the
connection code uses (`get_header`, `query`, `append`).
-/

set_option autoImplicit false

namespace NDhcp4

/-! ### Constants

Errno values are the Linux `<errno.h>` values; `ARPHRD_INFINIBAND` is from
`<net/if_arp.h>`. -/

def EINVAL : Int := 22
def EAGAIN : Int := 11
def ENODATA : Int := 61
def EEXIST : Int := 17

def ARPHRD_INFINIBAND : Nat := 32

/-- Modelled from the spec: DHCP option numbers.  They are declared in the
repository's private header (`n-dhcp4-private.h`), which is not under `src/`;
the spec lists MESSAGE_TYPE=53, CLIENT_IDENTIFIER=61, REQUESTED_IP_ADDRESS=50,
SERVER_IDENTIFIER=54, MAXIMUM_MESSAGE_SIZE=57, ERROR_MESSAGE=56. -/
def N_DHCP4_OPTION_MESSAGE_TYPE : Nat := 53

def N_DHCP4_OPTION_CLIENT_IDENTIFIER : Nat := 61

def N_DHCP4_OPTION_REQUESTED_IP_ADDRESS : Nat := 50

def N_DHCP4_OPTION_SERVER_IDENTIFIER : Nat := 54

def N_DHCP4_OPTION_MAXIMUM_MESSAGE_SIZE : Nat := 57

def N_DHCP4_OPTION_ERROR_MESSAGE : Nat := 56

/-- Modelled from the spec: DHCP message types (private header, not under
`src/`): DISCOVER=1, OFFER=2, REQUEST=3, DECLINE=4, ACK=5, NAK=6, RELEASE=7,
INFORM=8. -/
def N_DHCP4_MESSAGE_DISCOVER : Nat := 1

def N_DHCP4_MESSAGE_REQUEST : Nat := 3

def N_DHCP4_MESSAGE_DECLINE : Nat := 4

def N_DHCP4_MESSAGE_RELEASE : Nat := 7

def N_DHCP4_MESSAGE_INFORM : Nat := 8

/-- Modelled from the spec: `N_DHCP4_NETWORK_UDP_MAX_SIZE` = 576 (the
MUST-accept minimum; private header, not under `src/`). -/
def N_DHCP4_NETWORK_UDP_MAX_SIZE : Nat := 576

/-- Modelled from the spec: BOOTP `op` value BOOTREQUEST = 1. -/
def N_DHCP4_OP_BOOTREQUEST : Nat := 1

/-- Modelled from the spec: the BOOTP BROADCAST flag bit (the exact bit
position is immaterial to the claims; only "the flag is set" matters). -/
def N_DHCP4_MESSAGE_FLAG_BROADCAST : Nat := 32768

/-! ### Connection state

The C enum `N_DHCP4_CONNECTION_STATE_*` (source lines 17-22); `val` reflects
the enum's integer values, used by the code's ordered comparisons
(`state <= N_DHCP4_CONNECTION_STATE_PACKET`). -/

inductive ConnState where
  | INIT
  | PACKET
  | DRAINING
  | UDP
deriving DecidableEq, Repr

def ConnState.val : ConnState → Nat
  | .INIT => 0
  | .PACKET => 1
  | .DRAINING => 2
  | .UDP => 3

/-! ### The connection structure

`NDhcp4CConnection` from the private header, restricted to the fields the
code in `src/` reads or writes.  The fixed-size byte buffers (`chaddr`,
`bhaddr` of 16 bytes, `id`) are modelled as byte lists; `memcpy` of `n` bytes
becomes "replace the first `n` elements".  File descriptors are `Int` with
`-1` meaning absent.  The borrowed `efdp` notifier handle is not a field;
epoll operations instead appear in the syscall trace. -/

structure NDhcp4CConnection where
  ifindex : Int
  htype : Nat
  hlen : Nat
  chaddr : List Nat
  bhaddr : List Nat
  idlen : Nat
  id : List Nat
  request_broadcast : Bool
  send_chaddr : Bool
  mtu : Nat
  ciaddr : Nat
  siaddr : Nat
  pfd : Int
  ufd : Int
  state : ConnState
deriving DecidableEq, Repr

/-- `N_DHCP4_C_CONNECTION_NULL`: the zeroed initial form (descriptors absent,
state INIT, 16-byte hardware-address buffers zeroed). -/
def nullConnection : NDhcp4CConnection where
  ifindex := 0
  htype := 0
  hlen := 0
  chaddr := List.replicate 16 0
  bhaddr := List.replicate 16 0
  idlen := 0
  id := []
  request_broadcast := false
  send_chaddr := false
  mtu := 0
  ciaddr := 0
  siaddr := 0
  pfd := -1
  ufd := -1
  state := ConnState.INIT

/-! ### Messages (codec collaborator, opaque containers) -/

/-- The BOOTP header fields the connection code touches.  `chaddr` is the
16-byte header buffer. -/
structure NDhcp4Header where
  op : Nat
  htype : Nat
  hlen : Nat
  xid : Nat
  secs : Nat
  flags : Nat
  ciaddr : Nat
  chaddr : List Nat
deriving DecidableEq, Repr

def zeroHeader : NDhcp4Header where
  op := 0
  htype := 0
  hlen := 0
  xid := 0
  secs := 0
  flags := 0
  ciaddr := 0
  chaddr := List.replicate 16 0

structure NDhcp4Incoming where
  header : NDhcp4Header
  options : List (Nat × List Nat)
deriving DecidableEq, Repr

structure NDhcp4Outgoing where
  header : NDhcp4Header
  options : List (Nat × List Nat)
deriving DecidableEq, Repr

/-- `n_dhcp4_incoming_query(message, option, &data, &len)`: yields the payload
of the (first) instance of `option`, or `-ENODATA` when absent. -/
def n_dhcp4_incoming_query (m : NDhcp4Incoming) (opt : Nat) : Except Int (List Nat) :=
  match m.options.find? (fun p => p.1 == opt) with
  | some p => Except.ok p.2
  | none => Except.error (-ENODATA)

/-- `n_dhcp4_outgoing_append(message, option, data, n_data)`: appends one
option record.  (The codec's OVERFLOW failure is out of scope; the claims are
about which options the connection code appends.) -/
def n_dhcp4_outgoing_append (m : NDhcp4Outgoing) (opt : Nat) (data : List Nat) : NDhcp4Outgoing :=
  { m with options := m.options ++ [(opt, data)] }

/-- Number of instances of option `opt` in an outgoing message. -/
def optCount (m : NDhcp4Outgoing) (opt : Nat) : Nat :=
  (m.options.filter (fun p => p.1 == opt)).length

/-- Payload of the first instance of option `opt`, if any. -/
def optFirst (m : NDhcp4Outgoing) (opt : Nat) : Option (List Nat) :=
  (m.options.find? (fun p => p.1 == opt)).map Prod.snd

/-! ### Byte-order helpers -/

/-- The two in-memory bytes of `htons x` (network byte order, truncated to 16
bits exactly as the C `uint16_t` is). -/
def u16be (x : Nat) : List Nat := [x / 256 % 256, x % 256]

/-- The four in-memory bytes of a `struct in_addr` / `uint32_t` that holds the
value in network byte order (most significant byte first). -/
def u32be (x : Nat) : List Nat :=
  [x / 16777216 % 256, x / 65536 % 256, x / 256 % 256, x % 256]

/-- `htonl` on a little-endian host: byte-reverse of the 32-bit value. -/
def htonl32 (x : Nat) : Nat :=
  let y := x % 4294967296
  y % 256 * 16777216 + y / 256 % 256 * 65536 + y / 65536 % 256 * 256 + y / 16777216 % 256

/-! ### `n_dhcp4_c_connection_init` (source lines 24-47)

Note the faithful omission: the source copies the `id` bytes but never stores
`idlen` into the connection (`connection->idlen = idlen;` is missing). -/

def n_dhcp4_c_connection_init (connection : NDhcp4CConnection) (ifindex : Int)
    (htype hlen : Nat) (chaddr bhaddr : List Nat) (idlen : Nat) (id : List Nat)
    (request_broadcast : Bool) : Except Int NDhcp4CConnection :=
  if hlen > 16 then Except.error (-EINVAL)
  else if idlen = 1 then Except.error (-EINVAL)
  else
    let c := { connection with
               ifindex := ifindex
               htype := htype
               hlen := hlen
               request_broadcast := request_broadcast
               bhaddr := bhaddr.take hlen ++ connection.bhaddr.drop hlen
               chaddr := chaddr.take hlen ++ connection.chaddr.drop hlen
               id := id.take idlen ++ connection.id.drop idlen }
    if htype = ARPHRD_INFINIBAND then
      Except.ok { c with request_broadcast := true }
    else
      Except.ok { c with send_chaddr := true }

/-! ### Outbound message construction (source lines 276-354) -/

/-- `n_dhcp4_c_connection_init_header` (source lines 276-290). -/
def n_dhcp4_c_connection_init_header (connection : NDhcp4CConnection)
    (header : NDhcp4Header) : NDhcp4Header :=
  let h1 := { header with
              op := N_DHCP4_OP_BOOTREQUEST
              htype := connection.htype
              ciaddr := connection.ciaddr }
  let h2 := if connection.request_broadcast then
              { h1 with flags := h1.flags ||| N_DHCP4_MESSAGE_FLAG_BROADCAST }
            else h1
  if connection.send_chaddr then
    { h2 with
      hlen := connection.hlen
      chaddr := connection.chaddr.take connection.hlen ++ h2.chaddr.drop connection.hlen }
  else h2

/-- `n_dhcp4_c_connection_new_message` (source lines 292-341).  The outgoing
message starts zeroed (fresh allocation with the FILE|SNAME overload flags,
which do not affect the header/options view). -/
def n_dhcp4_c_connection_new_message (connection : NDhcp4CConnection)
    (type : Nat) : NDhcp4Outgoing :=
  let header := n_dhcp4_c_connection_init_header connection zeroHeader
  let m : NDhcp4Outgoing := { header := header, options := [] }
  let m := n_dhcp4_outgoing_append m N_DHCP4_OPTION_MESSAGE_TYPE [type]
  let m := if connection.idlen ≠ 0 then
             n_dhcp4_outgoing_append m N_DHCP4_OPTION_CLIENT_IDENTIFIER
               (connection.id.take connection.idlen)
           else m
  if type = N_DHCP4_MESSAGE_DISCOVER ∨ type = N_DHCP4_MESSAGE_REQUEST ∨
     type = N_DHCP4_MESSAGE_INFORM then
    if connection.state.val ≤ ConnState.PACKET.val then
      if connection.mtu > 0 then
        n_dhcp4_outgoing_append m N_DHCP4_OPTION_MAXIMUM_MESSAGE_SIZE (u16be connection.mtu)
      else m
    else
      n_dhcp4_outgoing_append m N_DHCP4_OPTION_MAXIMUM_MESSAGE_SIZE
        (u16be N_DHCP4_NETWORK_UDP_MAX_SIZE)
  else m

/-- `n_dhcp4_c_connection_outgoing_set_xid` (source lines 343-354).  The
source writes `header->secs = htonl(secs)` into the 16-bit `secs` field
(little-endian host model); the `assert(secs != 0)` precondition is carried by
theorem hypotheses. -/
def n_dhcp4_c_connection_outgoing_set_xid (message : NDhcp4Outgoing)
    (xid secs : Nat) : NDhcp4Outgoing :=
  { message with
    header := { message.header with xid := xid, secs := htonl32 secs % 65536 } }

/-! ### Per-phase message builders (source lines 397-703)

Each `*_msg` definition is the message-construction part of the corresponding
source function; the final transmission step (`packet_broadcast`,
`udp_broadcast`, `udp_send`) serializes the finished message and does not
modify it.  `error` is the optional NUL-terminated string of DECLINE/RELEASE,
modelled as its bytes without the NUL (the source appends `strlen(error)+1`
bytes, i.e. including the NUL). -/

def n_dhcp4_c_connection_discover_msg (connection : NDhcp4CConnection)
    (xid secs : Nat) : NDhcp4Outgoing :=
  n_dhcp4_c_connection_outgoing_set_xid
    (n_dhcp4_c_connection_new_message connection N_DHCP4_MESSAGE_DISCOVER) xid secs

def n_dhcp4_c_connection_select_msg (connection : NDhcp4CConnection)
    (client server : Nat) (xid secs : Nat) : NDhcp4Outgoing :=
  let m := n_dhcp4_c_connection_new_message connection N_DHCP4_MESSAGE_REQUEST
  let m := n_dhcp4_c_connection_outgoing_set_xid m xid secs
  let m := n_dhcp4_outgoing_append m N_DHCP4_OPTION_REQUESTED_IP_ADDRESS (u32be client)
  n_dhcp4_outgoing_append m N_DHCP4_OPTION_SERVER_IDENTIFIER (u32be server)

def n_dhcp4_c_connection_reboot_msg (connection : NDhcp4CConnection)
    (client : Nat) (xid secs : Nat) : NDhcp4Outgoing :=
  let m := n_dhcp4_c_connection_new_message connection N_DHCP4_MESSAGE_REQUEST
  let m := n_dhcp4_c_connection_outgoing_set_xid m xid secs
  n_dhcp4_outgoing_append m N_DHCP4_OPTION_REQUESTED_IP_ADDRESS (u32be client)

def n_dhcp4_c_connection_renew_msg (connection : NDhcp4CConnection)
    (xid secs : Nat) : NDhcp4Outgoing :=
  n_dhcp4_c_connection_outgoing_set_xid
    (n_dhcp4_c_connection_new_message connection N_DHCP4_MESSAGE_REQUEST) xid secs

def n_dhcp4_c_connection_rebind_msg (connection : NDhcp4CConnection)
    (xid secs : Nat) : NDhcp4Outgoing :=
  n_dhcp4_c_connection_outgoing_set_xid
    (n_dhcp4_c_connection_new_message connection N_DHCP4_MESSAGE_REQUEST) xid secs

def n_dhcp4_c_connection_inform_msg (connection : NDhcp4CConnection)
    (xid secs : Nat) : NDhcp4Outgoing :=
  n_dhcp4_c_connection_outgoing_set_xid
    (n_dhcp4_c_connection_new_message connection N_DHCP4_MESSAGE_INFORM) xid secs

def n_dhcp4_c_connection_decline_msg (connection : NDhcp4CConnection)
    (error : Option (List Nat)) (client server : Nat) : NDhcp4Outgoing :=
  let m := n_dhcp4_c_connection_new_message connection N_DHCP4_MESSAGE_DECLINE
  let m := n_dhcp4_outgoing_append m N_DHCP4_OPTION_REQUESTED_IP_ADDRESS (u32be client)
  let m := n_dhcp4_outgoing_append m N_DHCP4_OPTION_SERVER_IDENTIFIER (u32be server)
  match error with
  | some e => n_dhcp4_outgoing_append m N_DHCP4_OPTION_ERROR_MESSAGE (e ++ [0])
  | none => m

def n_dhcp4_c_connection_release_msg (connection : NDhcp4CConnection)
    (error : Option (List Nat)) : NDhcp4Outgoing :=
  let m := n_dhcp4_c_connection_new_message connection N_DHCP4_MESSAGE_RELEASE
  let m := n_dhcp4_outgoing_append m N_DHCP4_OPTION_SERVER_IDENTIFIER
             (u32be connection.siaddr)
  match error with
  | some e => n_dhcp4_outgoing_append m N_DHCP4_OPTION_ERROR_MESSAGE (e ++ [0])
  | none => m

/-! ### Inbound identity verification (source lines 115-139) -/

/-- `n_dhcp4_c_connection_verify_incoming`: 0 on a matching message, a
negative errno on a mismatch.  `memcmp(a, b, n)` over byte buffers becomes
equality of the first `n` bytes.  When the CLIENT_IDENTIFIER option is absent
(`-ENODATA`) the source continues with `id = NULL, idlen = 0`; any other query
error is returned unchanged. -/
def n_dhcp4_c_connection_verify_incoming (connection : NDhcp4CConnection)
    (message : NDhcp4Incoming) : Int :=
  if connection.chaddr.take connection.hlen ≠ message.header.chaddr.take connection.hlen then
    -EINVAL
  else
    match n_dhcp4_incoming_query message N_DHCP4_OPTION_CLIENT_IDENTIFIER with
    | Except.error r =>
        if r = -ENODATA then
          -- id = NULL, idlen = 0; then the two checks below with idlen = 0
          if 0 ≠ connection.idlen then -EINVAL else 0
        else r
    | Except.ok idbytes =>
        if idbytes.length ≠ connection.idlen then -EINVAL
        else if connection.id.take idbytes.length ≠ idbytes then -EINVAL
        else 0

/-- The client identifier a parsed message carries, with "absent" counting as
the empty identifier (length 0), mirroring the verification code. -/
def incomingClientId (message : NDhcp4Incoming) : List Nat :=
  match n_dhcp4_incoming_query message N_DHCP4_OPTION_CLIENT_IDENTIFIER with
  | Except.ok b => b
  | Except.error _ => []

/-- The identity-match predicate of the spec, as a Boolean: header `chaddr`
agrees with the connection's over `hlen` bytes, the message's client
identifier has length `idlen` and its bytes equal the connection's `id`. -/
def identityMatches (connection : NDhcp4CConnection) (message : NDhcp4Incoming) : Bool :=
  connection.chaddr.take connection.hlen == message.header.chaddr.take connection.hlen &&
  (incomingClientId message).length == connection.idlen &&
  connection.id.take (incomingClientId message).length == incomingClientId message

/-! ### System calls, connect and dispatch -/

/-- The observable system calls the connection code performs, in order. -/
inductive SysCall where
  | udpSocketNew (ifindex : Int) (client server : Nat)
  | epollAdd (fd : Int)
  | epollDel (fd : Int)
  | packetShutdown (fd : Int)
  | closeFd (fd : Int)
  | packetRecvUdp (fd : Int)
  | udpRecv (fd : Int)
deriving DecidableEq, Repr

deriving instance DecidableEq for Except

/-- Oracle for the three fallible steps of `connect`: the result of
`n_dhcp4_network_client_udp_socket_new` (a new descriptor, stored into `ufd`
only on success, or a negative error), the value `connect` derives from the
`epoll_ctl` registration (0, or `-errno` on failure), and the return of
`packet_shutdown`. -/
structure ConnectEnv where
  udpNew : Except Int Int
  epollAddRet : Int
  shutdownRet : Int
deriving DecidableEq, Repr

structure ConnectResult where
  ret : Int
  conn : NDhcp4CConnection
  trace : List SysCall
deriving DecidableEq, Repr

/-- `n_dhcp4_c_connection_connect` (source lines 87-113).  Precondition
(`assert`): state is PACKET.  Note two faithful details: the `epoll_ctl` ADD
at line 100 targets `connection->pfd` (not the new UDP descriptor), and no
failure path closes an already-created UDP socket. -/
def n_dhcp4_c_connection_connect (connection : NDhcp4CConnection)
    (client server : Nat) (env : ConnectEnv) : ConnectResult :=
  match env.udpNew with
  | Except.error r =>
      { ret := r, conn := connection
        trace := [SysCall.udpSocketNew connection.ifindex client server] }
  | Except.ok fd =>
      let conn1 := { connection with ufd := fd }
      let t1 := [SysCall.udpSocketNew connection.ifindex client server,
                 SysCall.epollAdd connection.pfd]
      if env.epollAddRet < 0 then
        { ret := env.epollAddRet, conn := conn1, trace := t1 }
      else if env.shutdownRet < 0 then
        { ret := env.shutdownRet, conn := conn1
          trace := t1 ++ [SysCall.packetShutdown connection.pfd] }
      else
        { ret := 0
          conn := { conn1 with
                    ciaddr := client
                    siaddr := server
                    state := ConnState.DRAINING }
          trace := t1 ++ [SysCall.packetShutdown connection.pfd] }

/-- Outcome of one `recv`/`packet_recv_udp` call on a socket: a zero-length
read, a failure with a (positive) errno — EAGAIN being WOULDBLOCK — or a
datagram of positive length together with the outcome of parsing its bytes
with `n_dhcp4_incoming_new`. -/
inductive RecvOutcome where
  | zero
  | err (errno : Int)
  | msg (parse : Except Int NDhcp4Incoming)
deriving DecidableEq, Repr

/-- What the two sockets would deliver on this dispatch call. -/
structure DispatchEnv where
  pktRecv : RecvOutcome
  udpRecv : RecvOutcome
deriving DecidableEq, Repr

/-- `n_dhcp4_c_connection_dispatch_packet` (source lines 141-160): returns 0
with `*messagep = NULL` on a zero-length read, `-errno` on a read failure, the
parse error on a malformed datagram, else 0 with the parsed message. -/
def n_dhcp4_c_connection_dispatch_packet (o : RecvOutcome) :
    Except Int (Option NDhcp4Incoming) :=
  match o with
  | RecvOutcome.zero => Except.ok none
  | RecvOutcome.err e => Except.error (-e)
  | RecvOutcome.msg (Except.error r) => Except.error r
  | RecvOutcome.msg (Except.ok m) => Except.ok (some m)

/-- `n_dhcp4_c_connection_dispatch_udp` (source lines 162-181): identical
shape over `recv` on the UDP socket. -/
def n_dhcp4_c_connection_dispatch_udp (o : RecvOutcome) :
    Except Int (Option NDhcp4Incoming) :=
  match o with
  | RecvOutcome.zero => Except.ok none
  | RecvOutcome.err e => Except.error (-e)
  | RecvOutcome.msg (Except.error r) => Except.error r
  | RecvOutcome.msg (Except.ok m) => Except.ok (some m)

/-- Result of a `dispatch` call: a negative return, or return 0 with
`*messagep` either a verified message or untouched ("no message"), or the
undefined behavior the source exhibits when it reaches
`n_dhcp4_c_connection_verify_incoming(connection, NULL)` with a NULL message
(the callee immediately dereferences its `message` argument). -/
inductive DispatchOut where
  | err (r : Int)
  | ok (msg : Option NDhcp4Incoming)
  | ub
deriving DecidableEq, Repr

structure DispatchResult where
  out : DispatchOut
  conn : NDhcp4CConnection
  trace : List SysCall
deriving DecidableEq, Repr

/-- Source lines 217-223: the tail of `dispatch` after the switch.  `message`
is NULL (`none`) or the parsed datagram; verification failure is a silent
drop (return 0, `*messagep` untouched); a NULL message is dereferenced by
`verify_incoming` — undefined behavior. -/
def dispatchFinish (connection : NDhcp4CConnection) (t : List SysCall) :
    Option NDhcp4Incoming → DispatchResult
  | none => { out := DispatchOut.ub, conn := connection, trace := t }
  | some m =>
      if n_dhcp4_c_connection_verify_incoming connection m < 0 then
        { out := DispatchOut.ok none, conn := connection, trace := t }
      else
        { out := DispatchOut.ok (some m), conn := connection, trace := t }

/-- `n_dhcp4_c_connection_dispatch` (source lines 183-224).  In INIT the
switch has no case, so control reaches the verification of the still-NULL
message.  In DRAINING, a packet-socket result `r < 0` other than `-EAGAIN` is
returned; on `-EAGAIN` the packet descriptor is deregistered and closed, the
state set to UDP (the `pfd` field itself is not reset) and the UDP socket
dispatched. -/
def n_dhcp4_c_connection_dispatch (connection : NDhcp4CConnection)
    (env : DispatchEnv) : DispatchResult :=
  match connection.state with
  | ConnState.INIT =>
      { out := DispatchOut.ub, conn := connection, trace := [] }
  | ConnState.PACKET =>
      match n_dhcp4_c_connection_dispatch_packet env.pktRecv with
      | Except.error r =>
          { out := DispatchOut.err r, conn := connection
            trace := [SysCall.packetRecvUdp connection.pfd] }
      | Except.ok om =>
          dispatchFinish connection [SysCall.packetRecvUdp connection.pfd] om
  | ConnState.DRAINING =>
      match n_dhcp4_c_connection_dispatch_packet env.pktRecv with
      | Except.ok om =>
          dispatchFinish connection [SysCall.packetRecvUdp connection.pfd] om
      | Except.error r =>
          if r ≠ -EAGAIN then
            { out := DispatchOut.err r, conn := connection
              trace := [SysCall.packetRecvUdp connection.pfd] }
          else
            let conn1 := { connection with state := ConnState.UDP }
            let t := [SysCall.packetRecvUdp connection.pfd,
                      SysCall.epollDel connection.pfd,
                      SysCall.closeFd connection.pfd,
                      SysCall.udpRecv connection.ufd]
            match n_dhcp4_c_connection_dispatch_udp env.udpRecv with
            | Except.error r2 => { out := DispatchOut.err r2, conn := conn1, trace := t }
            | Except.ok om => dispatchFinish conn1 t om
  | ConnState.UDP =>
      match n_dhcp4_c_connection_dispatch_udp env.udpRecv with
      | Except.error r =>
          { out := DispatchOut.err r, conn := connection
            trace := [SysCall.udpRecv connection.ufd] }
      | Except.ok om =>
          dispatchFinish connection [SysCall.udpRecv connection.ufd] om

/-! ### Concrete fixtures

A connection as produced by `listen` from the spec's happy path (Ethernet,
`chaddr = 02:00:00:00:00:01`, empty client identifier), in each of the three
post-INIT states, plus matching and foreign inbound messages. -/

def samplePacketConn : NDhcp4CConnection :=
  { nullConnection with
    ifindex := 3
    htype := 1
    hlen := 6
    chaddr := [2, 0, 0, 0, 0, 1] ++ List.replicate 10 0
    bhaddr := List.replicate 6 255 ++ List.replicate 10 0
    send_chaddr := true
    pfd := 4
    state := ConnState.PACKET }

def sampleDrainConn : NDhcp4CConnection :=
  { samplePacketConn with
    ufd := 7
    ciaddr := 3221225994
    siaddr := 3221225985
    state := ConnState.DRAINING }

def sampleUdpConn : NDhcp4CConnection :=
  { sampleDrainConn with pfd := -1, state := ConnState.UDP }

/-- An inbound message whose header `chaddr` matches the fixtures over
`hlen = 6` bytes and which carries no client identifier. -/
def sampleMsg : NDhcp4Incoming :=
  { header := { zeroHeader with chaddr := [2, 0, 0, 0, 0, 1] ++ List.replicate 10 0 }
    options := [] }

/-- An inbound message from a foreign client (`chaddr = 02:00:00:00:00:02`). -/
def foreignMsg : NDhcp4Incoming :=
  { header := { zeroHeader with chaddr := [2, 0, 0, 0, 0, 2] ++ List.replicate 10 0 }
    options := [] }

/-! ### Claim theorems -/

def connectAllOk : ConnectResult :=
  n_dhcp4_c_connection_connect samplePacketConn 3221225994 3221225985
    { udpNew := Except.ok 7, epollAddRet := 0, shutdownRet := 0 }

/-- Claim C1: a successful `connect(client, server)` from state PACKET opens
the UDP socket, half-closes the packet socket, records `ciaddr`/`siaddr` and
moves to DRAINING — but the readiness registration it adds targets the
already-registered packet descriptor `pfd` (source line 100), and the UDP
descriptor `ufd` is never registered, contradicting the claim. -/
theorem connect_registers_packet_descriptor_not_udp :
    connectAllOk.ret = 0 ∧
    connectAllOk.conn.state = ConnState.DRAINING ∧
    connectAllOk.conn.ciaddr = 3221225994 ∧
    connectAllOk.conn.siaddr = 3221225985 ∧
    connectAllOk.conn.ufd = 7 ∧
    connectAllOk.conn.pfd = 4 ∧
    connectAllOk.trace = [SysCall.udpSocketNew 3 3221225994 3221225985,
                         SysCall.epollAdd 4, SysCall.packetShutdown 4] ∧
    SysCall.epollAdd 7 ∉ connectAllOk.trace := by
  decide

/-- Claim C2: `init` copies the client-identifier bytes but never stores
`idlen` into the connection, so after a successful `init` with `idlen = 2`,
`id = [171, 205]` on a fresh connection the built DISCOVER carries no
CLIENT_IDENTIFIER option at all, contradicting the claim. -/
theorem init_does_not_store_idlen :
    (n_dhcp4_c_connection_init nullConnection 3 1 6
        ([2, 0, 0, 0, 0, 1]) (List.replicate 6 255) 2 [171, 205] false).map
      (fun c => (c.idlen, c.id,
        optCount (n_dhcp4_c_connection_new_message c N_DHCP4_MESSAGE_DISCOVER)
          N_DHCP4_OPTION_CLIENT_IDENTIFIER)) =
    Except.ok (0, [171, 205], 0) := by
  decide

/-- Claim C3: a datagram whose bytes fail to parse (here with `-EINVAL`) does
not yield "no message": `dispatch` propagates the parse error in every state
in {PACKET, DRAINING, UDP}, contradicting the claim (the source's XXX comment
flags exactly this). -/
theorem dispatch_propagates_parse_error :
    (n_dhcp4_c_connection_dispatch samplePacketConn
      { pktRecv := RecvOutcome.msg (Except.error (-EINVAL)),
        udpRecv := RecvOutcome.zero }).out = DispatchOut.err (-EINVAL) ∧
    (n_dhcp4_c_connection_dispatch sampleDrainConn
      { pktRecv := RecvOutcome.msg (Except.error (-EINVAL)),
        udpRecv := RecvOutcome.zero }).out = DispatchOut.err (-EINVAL) ∧
    (n_dhcp4_c_connection_dispatch sampleUdpConn
      { pktRecv := RecvOutcome.zero,
        udpRecv := RecvOutcome.msg (Except.error (-EINVAL)) }).out =
      DispatchOut.err (-EINVAL) := by
  decide

/-- Claim C4 (counterexample): with the read blocking (WOULDBLOCK/EAGAIN),
`dispatch` in state PACKET — and likewise in UDP — returns the error
`-EAGAIN` instead of "no message". -/
theorem dispatch_wouldblock_returns_error :
    (n_dhcp4_c_connection_dispatch samplePacketConn
      { pktRecv := RecvOutcome.err EAGAIN, udpRecv := RecvOutcome.zero }).out =
      DispatchOut.err (-EAGAIN) ∧
    (n_dhcp4_c_connection_dispatch samplePacketConn
      { pktRecv := RecvOutcome.err EAGAIN, udpRecv := RecvOutcome.zero }).out ≠
      DispatchOut.ok none ∧
    (n_dhcp4_c_connection_dispatch sampleUdpConn
      { pktRecv := RecvOutcome.zero, udpRecv := RecvOutcome.err EAGAIN }).out =
      DispatchOut.err (-EAGAIN) := by
  decide

/-- Claim C6: a zero-length read makes `dispatch_packet`/`dispatch_udp`
return 0 with a NULL message, after which `dispatch` still calls
`verify_incoming` on that NULL message (undefined behavior), instead of
returning "no message" without verification as the claim states. -/
theorem dispatch_zero_read_hits_null_verify :
    (n_dhcp4_c_connection_dispatch samplePacketConn
      { pktRecv := RecvOutcome.zero, udpRecv := RecvOutcome.zero }).out =
      DispatchOut.ub ∧
    (n_dhcp4_c_connection_dispatch sampleUdpConn
      { pktRecv := RecvOutcome.zero, udpRecv := RecvOutcome.zero }).out =
      DispatchOut.ub := by
  decide

def drainPacketRes : DispatchResult :=
  n_dhcp4_c_connection_dispatch sampleDrainConn
    { pktRecv := RecvOutcome.msg (Except.ok sampleMsg), udpRecv := RecvOutcome.zero }

def drainSwitchRes : DispatchResult :=
  n_dhcp4_c_connection_dispatch sampleDrainConn
    { pktRecv := RecvOutcome.err EAGAIN, udpRecv := RecvOutcome.msg (Except.ok sampleMsg) }

/-- Claim C7: in DRAINING, `dispatch` surfaces a queued packet-socket message
(without touching the UDP socket, staying in DRAINING), and on WOULDBLOCK it
deregisters and closes `pfd`, transitions to UDP and reads the UDP socket —
but the `pfd` field is left at its stale value 4 rather than set to -1,
contradicting the claim's `pfd == -1`. -/
theorem draining_orders_packet_before_udp_keeps_stale_pfd :
    drainPacketRes.out = DispatchOut.ok (some sampleMsg) ∧
    drainPacketRes.conn.state = ConnState.DRAINING ∧
    drainPacketRes.trace = [SysCall.packetRecvUdp 4] ∧
    SysCall.udpRecv 7 ∉ drainPacketRes.trace ∧
    drainSwitchRes.out = DispatchOut.ok (some sampleMsg) ∧
    drainSwitchRes.conn.state = ConnState.UDP ∧
    drainSwitchRes.trace = [SysCall.packetRecvUdp 4, SysCall.epollDel 4,
                            SysCall.closeFd 4, SysCall.udpRecv 7] ∧
    drainSwitchRes.conn.pfd = 4 ∧
    drainSwitchRes.conn.pfd ≠ -1 := by
  decide

def connectEpollFails : ConnectResult :=
  n_dhcp4_c_connection_connect samplePacketConn 3221225994 3221225985
    { udpNew := Except.ok 7, epollAddRet := -EEXIST, shutdownRet := 0 }

/-- Claim C5 (counterexample): when the registration step of `connect` fails
(here with `-EEXIST`), the already-opened UDP socket (descriptor 7) is left
open — it is stored in `ufd` and never closed — so partially-created
resources are not released. -/
theorem connect_failure_leaks_udp_socket :
    connectEpollFails.ret = -EEXIST ∧
    connectEpollFails.ret < 0 ∧
    connectEpollFails.conn.ufd = 7 ∧
    SysCall.closeFd 7 ∉ connectEpollFails.trace ∧
    connectEpollFails.conn.state = ConnState.PACKET ∧
    connectEpollFails.conn.pfd = 4 := by
  decide

/-! ### General lemmas about verification and dispatch -/

theorem query_error_is_enodata (m : NDhcp4Incoming) (opt : Nat) (r : Int)
    (h : n_dhcp4_incoming_query m opt = Except.error r) : r = -ENODATA := by
  unfold n_dhcp4_incoming_query at h
  cases hfind : m.options.find? (fun p => p.1 == opt) with
  | none =>
      rw [hfind] at h
      simpa using h.symm
  | some p =>
      rw [hfind] at h
      simp at h

/-- `verify_incoming` returns 0 exactly on an identity match and `-EINVAL`
otherwise. -/
theorem verify_spec (conn : NDhcp4CConnection) (m : NDhcp4Incoming) :
    n_dhcp4_c_connection_verify_incoming conn m =
      (if identityMatches conn m then 0 else -EINVAL) := by
  unfold n_dhcp4_c_connection_verify_incoming identityMatches incomingClientId
  cases hq : n_dhcp4_incoming_query m N_DHCP4_OPTION_CLIENT_IDENTIFIER with
  | error r =>
      have hr := query_error_is_enodata m _ r hq
      subst hr
      by_cases h1 : conn.chaddr.take conn.hlen = m.header.chaddr.take conn.hlen <;>
        by_cases h2 : conn.idlen = 0 <;>
          simp [h1, h2]
  | ok idbytes =>
      by_cases h1 : conn.chaddr.take conn.hlen = m.header.chaddr.take conn.hlen <;>
        by_cases h2 : idbytes.length = conn.idlen <;>
          by_cases h3 : conn.id.take idbytes.length = idbytes <;>
            simp [h1, h2, h3]

theorem verify_values (conn : NDhcp4CConnection) (m : NDhcp4Incoming) :
    n_dhcp4_c_connection_verify_incoming conn m = 0 ∨
    n_dhcp4_c_connection_verify_incoming conn m = -EINVAL := by
  rw [verify_spec]
  by_cases h : identityMatches conn m <;> simp [h]

theorem verify_eq_zero_iff (conn : NDhcp4CConnection) (m : NDhcp4Incoming) :
    n_dhcp4_c_connection_verify_incoming conn m = 0 ↔ identityMatches conn m = true := by
  rw [verify_spec]
  cases hb : identityMatches conn m <;> simp [hb, EINVAL]

theorem verify_lt_zero_iff (conn : NDhcp4CConnection) (m : NDhcp4Incoming) :
    n_dhcp4_c_connection_verify_incoming conn m < 0 ↔ identityMatches conn m = false := by
  rw [verify_spec]
  cases hb : identityMatches conn m <;> simp [hb, EINVAL]

theorem dispatchFinish_ok_some (conn : NDhcp4CConnection) (t : List SysCall)
    (om : Option NDhcp4Incoming) (m : NDhcp4Incoming)
    (h : (dispatchFinish conn t om).out = DispatchOut.ok (some m)) :
    om = some m ∧ n_dhcp4_c_connection_verify_incoming conn m = 0 := by
  cases om with
  | none => simp [dispatchFinish] at h
  | some m0 =>
      by_cases hv : n_dhcp4_c_connection_verify_incoming conn m0 < 0
      · simp [dispatchFinish, hv] at h
      · simp [dispatchFinish, hv] at h
        subst h
        refine ⟨rfl, ?_⟩
        rcases verify_values conn m0 with h0 | h0
        · exact h0
        · exact absurd (h0 ▸ (by decide : (-EINVAL : Int) < 0)) hv

theorem dispatchFinish_drop (conn : NDhcp4CConnection) (t : List SysCall)
    (m : NDhcp4Incoming) (h : n_dhcp4_c_connection_verify_incoming conn m < 0) :
    dispatchFinish conn t (some m) =
      { out := DispatchOut.ok none, conn := conn, trace := t } := by
  simp [dispatchFinish, h]

/-- Claim C8: dispatch drops (returns 0 / "no message", not an error) every
parsed message whose identity does not match the connection — header `chaddr`
vs `connection.chaddr` over `hlen` bytes, client-identifier length vs `idlen`
(absent = 0), client-identifier bytes vs `id` — and, consequently, every
message `dispatch` does return matches the connection's identity. -/
theorem dispatch_returns_only_matching_messages (conn : NDhcp4CConnection)
    (env : DispatchEnv) :
    (∀ m : NDhcp4Incoming,
        (n_dhcp4_c_connection_dispatch conn env).out = DispatchOut.ok (some m) →
        identityMatches conn m = true) ∧
    (∀ m : NDhcp4Incoming, identityMatches conn m = false →
        (conn.state = ConnState.PACKET →
          env.pktRecv = RecvOutcome.msg (Except.ok m) →
          (n_dhcp4_c_connection_dispatch conn env).out = DispatchOut.ok none) ∧
        (conn.state = ConnState.DRAINING →
          env.pktRecv = RecvOutcome.msg (Except.ok m) →
          (n_dhcp4_c_connection_dispatch conn env).out = DispatchOut.ok none) ∧
        (conn.state = ConnState.DRAINING →
          env.pktRecv = RecvOutcome.err EAGAIN →
          env.udpRecv = RecvOutcome.msg (Except.ok m) →
          (n_dhcp4_c_connection_dispatch conn env).out = DispatchOut.ok none) ∧
        (conn.state = ConnState.UDP →
          env.udpRecv = RecvOutcome.msg (Except.ok m) →
          (n_dhcp4_c_connection_dispatch conn env).out = DispatchOut.ok none)) := by
  obtain ⟨pk, ud⟩ := env
  constructor
  · intro m hm
    rw [← verify_eq_zero_iff]
    unfold n_dhcp4_c_connection_dispatch at hm
    cases hst : conn.state <;> rw [hst] at hm
    case INIT => simp at hm
    case PACKET =>
      cases pk with
      | zero => simp [n_dhcp4_c_connection_dispatch_packet, dispatchFinish] at hm
      | err e => simp [n_dhcp4_c_connection_dispatch_packet] at hm
      | msg p =>
          cases p with
          | error r => simp [n_dhcp4_c_connection_dispatch_packet] at hm
          | ok m0 =>
              simp only [n_dhcp4_c_connection_dispatch_packet] at hm
              obtain ⟨h1, h2⟩ := dispatchFinish_ok_some _ _ _ _ hm
              cases h1
              exact h2
    case DRAINING =>
      cases pk with
      | zero => simp [n_dhcp4_c_connection_dispatch_packet, dispatchFinish] at hm
      | msg p =>
          cases p with
          | error r =>
              simp only [n_dhcp4_c_connection_dispatch_packet] at hm
              by_cases he : r = -EAGAIN
              · rw [if_neg (by simp [he])] at hm
                cases hud : n_dhcp4_c_connection_dispatch_udp ud with
                | error r2 => rw [hud] at hm; simp at hm
                | ok om =>
                    rw [hud] at hm
                    obtain ⟨h1, h2⟩ := dispatchFinish_ok_some _ _ _ _ hm
                    cases h1
                    exact h2
              · rw [if_pos (by simpa using he)] at hm
                simp at hm
          | ok m0 =>
              simp only [n_dhcp4_c_connection_dispatch_packet] at hm
              obtain ⟨h1, h2⟩ := dispatchFinish_ok_some _ _ _ _ hm
              cases h1
              exact h2
      | err e =>
          simp only [n_dhcp4_c_connection_dispatch_packet] at hm
          by_cases he : -e = -EAGAIN
          · rw [if_neg (by simp [he])] at hm
            cases hud : n_dhcp4_c_connection_dispatch_udp ud with
            | error r2 => rw [hud] at hm; simp at hm
            | ok om =>
                rw [hud] at hm
                obtain ⟨h1, h2⟩ := dispatchFinish_ok_some _ _ _ _ hm
                cases h1
                exact h2
          · rw [if_pos (by simpa using he)] at hm
            simp at hm
    case UDP =>
      cases ud with
      | zero => simp [n_dhcp4_c_connection_dispatch_udp, dispatchFinish] at hm
      | err e => simp [n_dhcp4_c_connection_dispatch_udp] at hm
      | msg p =>
          cases p with
          | error r => simp [n_dhcp4_c_connection_dispatch_udp] at hm
          | ok m0 =>
              simp only [n_dhcp4_c_connection_dispatch_udp] at hm
              obtain ⟨h1, h2⟩ := dispatchFinish_ok_some _ _ _ _ hm
              cases h1
              exact h2
  · intro m hmm
    have hdrop : n_dhcp4_c_connection_verify_incoming conn m < 0 :=
      (verify_lt_zero_iff conn m).mpr hmm
    refine ⟨fun hst hpk => ?_, fun hst hpk => ?_, fun hst hpk hud => ?_,
            fun hst hud => ?_⟩ <;>
      unfold n_dhcp4_c_connection_dispatch <;>
      rw [hst]
    · simp only at hpk
      rw [hpk]
      simp only [n_dhcp4_c_connection_dispatch_packet]
      rw [dispatchFinish_drop _ _ _ hdrop]
    · simp only at hpk
      rw [hpk]
      simp only [n_dhcp4_c_connection_dispatch_packet]
      rw [dispatchFinish_drop _ _ _ hdrop]
    · simp only at hpk hud
      rw [hpk, hud]
      simp only [n_dhcp4_c_connection_dispatch_packet,
                 n_dhcp4_c_connection_dispatch_udp]
      rw [if_neg (by simp)]
      rw [dispatchFinish_drop _ _ _ (by exact hdrop)]
    · simp only at hud
      rw [hud]
      simp only [n_dhcp4_c_connection_dispatch_udp]
      rw [dispatchFinish_drop _ _ _ hdrop]

/-- Claim C8 witness: a matching message returned by `dispatch` in state UDP
satisfies the identity predicate, and a foreign message received in state
PACKET is dropped as "no message". -/
theorem dispatch_returns_only_matching_messages_witness :
    identityMatches sampleUdpConn sampleMsg = true ∧
    (n_dhcp4_c_connection_dispatch samplePacketConn
      { pktRecv := RecvOutcome.msg (Except.ok foreignMsg),
        udpRecv := RecvOutcome.zero }).out = DispatchOut.ok none :=
  ⟨(dispatch_returns_only_matching_messages sampleUdpConn
      { pktRecv := RecvOutcome.zero,
        udpRecv := RecvOutcome.msg (Except.ok sampleMsg) }).1 sampleMsg (by decide),
   ((dispatch_returns_only_matching_messages samplePacketConn
      { pktRecv := RecvOutcome.msg (Except.ok foreignMsg),
        udpRecv := RecvOutcome.zero }).2 foreignMsg (by decide)).1 rfl rfl⟩

/-- Claim C4 (amended): a WOULDBLOCK (EAGAIN) read in state PACKET or UDP
makes `dispatch` return the error `-EAGAIN` — it is not swallowed as "no
message" — with the connection unchanged; only in state DRAINING does
WOULDBLOCK on the packet socket instead deregister and close `pfd`,
transition the state to UDP and fall through to the UDP socket. -/
theorem dispatch_wouldblock_amended (conn : NDhcp4CConnection) (env : DispatchEnv) :
    (conn.state = ConnState.PACKET → env.pktRecv = RecvOutcome.err EAGAIN →
      n_dhcp4_c_connection_dispatch conn env =
        { out := DispatchOut.err (-EAGAIN), conn := conn,
          trace := [SysCall.packetRecvUdp conn.pfd] }) ∧
    (conn.state = ConnState.UDP → env.udpRecv = RecvOutcome.err EAGAIN →
      n_dhcp4_c_connection_dispatch conn env =
        { out := DispatchOut.err (-EAGAIN), conn := conn,
          trace := [SysCall.udpRecv conn.ufd] }) ∧
    (conn.state = ConnState.DRAINING → env.pktRecv = RecvOutcome.err EAGAIN →
      (n_dhcp4_c_connection_dispatch conn env).conn.state = ConnState.UDP ∧
      (n_dhcp4_c_connection_dispatch conn env).conn.pfd = conn.pfd ∧
      (n_dhcp4_c_connection_dispatch conn env).trace =
        [SysCall.packetRecvUdp conn.pfd, SysCall.epollDel conn.pfd,
         SysCall.closeFd conn.pfd, SysCall.udpRecv conn.ufd]) := by
  obtain ⟨pk, ud⟩ := env
  refine ⟨fun hst hpk => ?_, fun hst hud => ?_, fun hst hpk => ?_⟩ <;>
    unfold n_dhcp4_c_connection_dispatch <;>
    rw [hst]
  · simp only at hpk
    rw [hpk]
    simp [n_dhcp4_c_connection_dispatch_packet]
  · simp only at hud
    rw [hud]
    simp [n_dhcp4_c_connection_dispatch_udp]
  · simp only at hpk
    rw [hpk]
    simp only [n_dhcp4_c_connection_dispatch_packet]
    rw [if_neg (by simp)]
    cases ud with
    | zero => simp [n_dhcp4_c_connection_dispatch_udp, dispatchFinish]
    | err e => simp [n_dhcp4_c_connection_dispatch_udp]
    | msg p =>
        cases p with
        | error r => simp [n_dhcp4_c_connection_dispatch_udp]
        | ok m0 =>
            simp only [n_dhcp4_c_connection_dispatch_udp, dispatchFinish]
            split <;> simp

/-- Claim C4 amended witness: at the concrete PACKET-state fixture,
WOULDBLOCK on the packet socket yields the `-EAGAIN` error result. -/
theorem dispatch_wouldblock_amended_witness :
    n_dhcp4_c_connection_dispatch samplePacketConn
      { pktRecv := RecvOutcome.err EAGAIN, udpRecv := RecvOutcome.zero } =
      { out := DispatchOut.err (-EAGAIN), conn := samplePacketConn,
        trace := [SysCall.packetRecvUdp samplePacketConn.pfd] } :=
  (dispatch_wouldblock_amended samplePacketConn
    { pktRecv := RecvOutcome.err EAGAIN, udpRecv := RecvOutcome.zero }).1 rfl rfl

/-- Claim C5 (amended): if `connect` from state PACKET fails, the `state`
field is unchanged (still PACKET) and the packet socket untouched, and when
the UDP-socket creation itself failed the connection is entirely unchanged —
but when a later step fails, the already-opened UDP socket is left open: it
stays stored in `ufd` and no close of it is ever performed. -/
theorem connect_failure_state_amended (conn : NDhcp4CConnection)
    (client server : Nat) (env : ConnectEnv)
    (h : conn.state = ConnState.PACKET) :
    ((n_dhcp4_c_connection_connect conn client server env).ret < 0 →
      (n_dhcp4_c_connection_connect conn client server env).conn.state =
        ConnState.PACKET ∧
      (n_dhcp4_c_connection_connect conn client server env).conn.pfd = conn.pfd) ∧
    (∀ r : Int, env.udpNew = Except.error r →
      (n_dhcp4_c_connection_connect conn client server env).conn = conn) ∧
    (∀ fd : Int, env.udpNew = Except.ok fd →
      (n_dhcp4_c_connection_connect conn client server env).ret < 0 →
      (n_dhcp4_c_connection_connect conn client server env).conn.ufd = fd ∧
      SysCall.closeFd fd ∉
        (n_dhcp4_c_connection_connect conn client server env).trace) := by
  obtain ⟨un, ea, sh⟩ := env
  cases un with
  | error r =>
      refine ⟨fun _ => ?_, fun r0 h0 => ?_, fun fd h0 _ => ?_⟩
      · simp [n_dhcp4_c_connection_connect, h]
      · simp [n_dhcp4_c_connection_connect]
      · simp at h0
  | ok fd =>
      by_cases hea : ea < 0
      · refine ⟨fun _ => ?_, fun r0 h0 => ?_, fun fd0 h0 _ => ?_⟩
        · simp [n_dhcp4_c_connection_connect, hea, h]
        · simp at h0
        · simp only at h0
          cases h0
          simp [n_dhcp4_c_connection_connect, hea]
      · by_cases hsh : sh < 0
        · refine ⟨fun _ => ?_, fun r0 h0 => ?_, fun fd0 h0 _ => ?_⟩
          · simp [n_dhcp4_c_connection_connect, hea, hsh, h]
          · simp at h0
          · simp only at h0
            cases h0
            simp [n_dhcp4_c_connection_connect, hea, hsh]
        · refine ⟨fun hc => ?_, fun r0 h0 => ?_, fun fd0 h0 hc => ?_⟩
          · simp [n_dhcp4_c_connection_connect, hea, hsh] at hc
          · simp at h0
          · simp [n_dhcp4_c_connection_connect, hea, hsh] at hc

/-- Claim C5 amended witness: at the concrete fixture where the registration
step fails with `-EEXIST`, the opened UDP descriptor 7 is never closed. -/
theorem connect_failure_state_amended_witness :
    SysCall.closeFd 7 ∉
      (n_dhcp4_c_connection_connect samplePacketConn 3221225994 3221225985
        { udpNew := Except.ok 7, epollAddRet := -EEXIST, shutdownRet := 0 }).trace :=
  ((connect_failure_state_amended samplePacketConn 3221225994 3221225985
      { udpNew := Except.ok 7, epollAddRet := -EEXIST, shutdownRet := 0 }
      rfl).2.2 7 rfl (by decide)).2

/-! ### Option bookkeeping for the message builder -/

theorem optCount_append (m : NDhcp4Outgoing) (t opt : Nat) (data : List Nat) :
    optCount (n_dhcp4_outgoing_append m t data) opt =
      optCount m opt + (if t = opt then 1 else 0) := by
  simp only [optCount, n_dhcp4_outgoing_append, List.filter_append, List.length_append]
  by_cases h : t = opt <;> simp [h]

theorem optFirst_append_ne (m : NDhcp4Outgoing) (t opt : Nat) (data : List Nat)
    (h : t ≠ opt) :
    optFirst (n_dhcp4_outgoing_append m t data) opt = optFirst m opt := by
  simp [optFirst, n_dhcp4_outgoing_append, List.find?_append, h]

theorem optFirst_append_self_of_none (m : NDhcp4Outgoing) (opt : Nat)
    (data : List Nat) (h : optFirst m opt = none) :
    optFirst (n_dhcp4_outgoing_append m opt data) opt = some data := by
  have h' : m.options.find? (fun p => p.1 == opt) = none := by
    cases hf : m.options.find? (fun p => p.1 == opt) with
    | none => rfl
    | some p =>
        unfold optFirst at h
        rw [hf] at h
        simp at h
  simp [optFirst, n_dhcp4_outgoing_append, List.find?_append, h']

theorem set_xid_options (m : NDhcp4Outgoing) (xid secs : Nat) :
    (n_dhcp4_c_connection_outgoing_set_xid m xid secs).options = m.options := rfl

theorem optCount_set_xid (m : NDhcp4Outgoing) (xid secs opt : Nat) :
    optCount (n_dhcp4_c_connection_outgoing_set_xid m xid secs) opt =
      optCount m opt := rfl

theorem optFirst_set_xid (m : NDhcp4Outgoing) (xid secs opt : Nat) :
    optFirst (n_dhcp4_c_connection_outgoing_set_xid m xid secs) opt =
      optFirst m opt := rfl

/-- The exact option records `new_message` produces, in order. -/
theorem new_message_options (conn : NDhcp4CConnection) (type : Nat) :
    (n_dhcp4_c_connection_new_message conn type).options =
      [(N_DHCP4_OPTION_MESSAGE_TYPE, [type])] ++
      (if conn.idlen ≠ 0 then
         [(N_DHCP4_OPTION_CLIENT_IDENTIFIER, conn.id.take conn.idlen)]
       else []) ++
      (if type = N_DHCP4_MESSAGE_DISCOVER ∨ type = N_DHCP4_MESSAGE_REQUEST ∨
          type = N_DHCP4_MESSAGE_INFORM then
         if conn.state.val ≤ ConnState.PACKET.val then
           if conn.mtu > 0 then
             [(N_DHCP4_OPTION_MAXIMUM_MESSAGE_SIZE, u16be conn.mtu)]
           else []
         else [(N_DHCP4_OPTION_MAXIMUM_MESSAGE_SIZE,
                u16be N_DHCP4_NETWORK_UDP_MAX_SIZE)]
       else []) := by
  unfold n_dhcp4_c_connection_new_message n_dhcp4_outgoing_append
  split_ifs <;> simp

theorem new_message_count57 (conn : NDhcp4CConnection) (type : Nat) :
    optCount (n_dhcp4_c_connection_new_message conn type)
        N_DHCP4_OPTION_MAXIMUM_MESSAGE_SIZE =
      if (type = N_DHCP4_MESSAGE_DISCOVER ∨ type = N_DHCP4_MESSAGE_REQUEST ∨
          type = N_DHCP4_MESSAGE_INFORM) ∧
         ((conn.state = ConnState.DRAINING ∨ conn.state = ConnState.UDP) ∨
          ((conn.state = ConnState.INIT ∨ conn.state = ConnState.PACKET) ∧
           0 < conn.mtu)) then 1 else 0 := by
  unfold optCount
  rw [new_message_options]
  by_cases htri : type = N_DHCP4_MESSAGE_DISCOVER ∨ type = N_DHCP4_MESSAGE_REQUEST ∨
      type = N_DHCP4_MESSAGE_INFORM
  · cases hst : conn.state <;>
      by_cases hmtu : conn.mtu > 0 <;>
        by_cases hid : conn.idlen ≠ 0 <;>
          simp [htri, hmtu, hid, ConnState.val, List.filter_append,
                N_DHCP4_OPTION_MESSAGE_TYPE, N_DHCP4_OPTION_CLIENT_IDENTIFIER,
                N_DHCP4_OPTION_MAXIMUM_MESSAGE_SIZE]
  · by_cases hid : conn.idlen ≠ 0 <;>
      simp [htri, hid, List.filter_append,
            N_DHCP4_OPTION_MESSAGE_TYPE, N_DHCP4_OPTION_CLIENT_IDENTIFIER,
            N_DHCP4_OPTION_MAXIMUM_MESSAGE_SIZE]

theorem new_message_first57 (conn : NDhcp4CConnection) (type : Nat) :
    optFirst (n_dhcp4_c_connection_new_message conn type)
        N_DHCP4_OPTION_MAXIMUM_MESSAGE_SIZE =
      if (type = N_DHCP4_MESSAGE_DISCOVER ∨ type = N_DHCP4_MESSAGE_REQUEST ∨
          type = N_DHCP4_MESSAGE_INFORM) ∧
         ((conn.state = ConnState.DRAINING ∨ conn.state = ConnState.UDP) ∨
          ((conn.state = ConnState.INIT ∨ conn.state = ConnState.PACKET) ∧
           0 < conn.mtu)) then
        some (u16be (if conn.state = ConnState.DRAINING ∨ conn.state = ConnState.UDP
                     then N_DHCP4_NETWORK_UDP_MAX_SIZE else conn.mtu))
      else none := by
  unfold optFirst
  rw [new_message_options]
  by_cases htri : type = N_DHCP4_MESSAGE_DISCOVER ∨ type = N_DHCP4_MESSAGE_REQUEST ∨
      type = N_DHCP4_MESSAGE_INFORM
  · cases hst : conn.state <;>
      by_cases hmtu : conn.mtu > 0 <;>
        by_cases hid : conn.idlen ≠ 0 <;>
          simp [htri, hmtu, hid, ConnState.val, List.find?_append,
                N_DHCP4_OPTION_MESSAGE_TYPE, N_DHCP4_OPTION_CLIENT_IDENTIFIER,
                N_DHCP4_OPTION_MAXIMUM_MESSAGE_SIZE]
  · by_cases hid : conn.idlen ≠ 0 <;>
      simp [htri, hid, List.find?_append,
            N_DHCP4_OPTION_MESSAGE_TYPE, N_DHCP4_OPTION_CLIENT_IDENTIFIER,
            N_DHCP4_OPTION_MAXIMUM_MESSAGE_SIZE]

theorem new_message_54 (conn : NDhcp4CConnection) (type : Nat) :
    optCount (n_dhcp4_c_connection_new_message conn type)
        N_DHCP4_OPTION_SERVER_IDENTIFIER = 0 ∧
    optFirst (n_dhcp4_c_connection_new_message conn type)
        N_DHCP4_OPTION_SERVER_IDENTIFIER = none := by
  constructor
  · unfold optCount
    rw [new_message_options]
    split_ifs <;>
      simp [List.filter_append, N_DHCP4_OPTION_MESSAGE_TYPE,
            N_DHCP4_OPTION_CLIENT_IDENTIFIER, N_DHCP4_OPTION_MAXIMUM_MESSAGE_SIZE,
            N_DHCP4_OPTION_SERVER_IDENTIFIER]
  · unfold optFirst
    rw [new_message_options]
    split_ifs <;>
      simp [List.find?_append, N_DHCP4_OPTION_MESSAGE_TYPE,
            N_DHCP4_OPTION_CLIENT_IDENTIFIER, N_DHCP4_OPTION_MAXIMUM_MESSAGE_SIZE,
            N_DHCP4_OPTION_SERVER_IDENTIFIER]

/-- Claim C9: a message carries exactly one MAXIMUM_MESSAGE_SIZE option iff
it is built for DISCOVER, REQUEST or INFORM and either the state is DRAINING
or UDP (value: the 2-byte network-order encoding of `UDP_MAX_SIZE` = 576) or
the state is INIT or PACKET with `mtu > 0` (value: the connection's `mtu`).
Every phase builder of those types produces exactly the option `new_message`
does, and the DECLINE and RELEASE builders produce none. -/
theorem max_message_size_option_policy (conn : NDhcp4CConnection) (type : Nat)
    (client server xid secs : Nat) (error : Option (List Nat)) :
    (optCount (n_dhcp4_c_connection_new_message conn type)
        N_DHCP4_OPTION_MAXIMUM_MESSAGE_SIZE =
      if (type = N_DHCP4_MESSAGE_DISCOVER ∨ type = N_DHCP4_MESSAGE_REQUEST ∨
          type = N_DHCP4_MESSAGE_INFORM) ∧
         ((conn.state = ConnState.DRAINING ∨ conn.state = ConnState.UDP) ∨
          ((conn.state = ConnState.INIT ∨ conn.state = ConnState.PACKET) ∧
           0 < conn.mtu)) then 1 else 0) ∧
    (optFirst (n_dhcp4_c_connection_new_message conn type)
        N_DHCP4_OPTION_MAXIMUM_MESSAGE_SIZE =
      if (type = N_DHCP4_MESSAGE_DISCOVER ∨ type = N_DHCP4_MESSAGE_REQUEST ∨
          type = N_DHCP4_MESSAGE_INFORM) ∧
         ((conn.state = ConnState.DRAINING ∨ conn.state = ConnState.UDP) ∨
          ((conn.state = ConnState.INIT ∨ conn.state = ConnState.PACKET) ∧
           0 < conn.mtu)) then
        some (u16be (if conn.state = ConnState.DRAINING ∨ conn.state = ConnState.UDP
                     then N_DHCP4_NETWORK_UDP_MAX_SIZE else conn.mtu))
      else none) ∧
    (optCount (n_dhcp4_c_connection_discover_msg conn xid secs)
        N_DHCP4_OPTION_MAXIMUM_MESSAGE_SIZE =
      optCount (n_dhcp4_c_connection_new_message conn N_DHCP4_MESSAGE_DISCOVER)
        N_DHCP4_OPTION_MAXIMUM_MESSAGE_SIZE ∧
     optFirst (n_dhcp4_c_connection_discover_msg conn xid secs)
        N_DHCP4_OPTION_MAXIMUM_MESSAGE_SIZE =
      optFirst (n_dhcp4_c_connection_new_message conn N_DHCP4_MESSAGE_DISCOVER)
        N_DHCP4_OPTION_MAXIMUM_MESSAGE_SIZE) ∧
    (optCount (n_dhcp4_c_connection_select_msg conn client server xid secs)
        N_DHCP4_OPTION_MAXIMUM_MESSAGE_SIZE =
      optCount (n_dhcp4_c_connection_new_message conn N_DHCP4_MESSAGE_REQUEST)
        N_DHCP4_OPTION_MAXIMUM_MESSAGE_SIZE ∧
     optFirst (n_dhcp4_c_connection_select_msg conn client server xid secs)
        N_DHCP4_OPTION_MAXIMUM_MESSAGE_SIZE =
      optFirst (n_dhcp4_c_connection_new_message conn N_DHCP4_MESSAGE_REQUEST)
        N_DHCP4_OPTION_MAXIMUM_MESSAGE_SIZE) ∧
    (optCount (n_dhcp4_c_connection_reboot_msg conn client xid secs)
        N_DHCP4_OPTION_MAXIMUM_MESSAGE_SIZE =
      optCount (n_dhcp4_c_connection_new_message conn N_DHCP4_MESSAGE_REQUEST)
        N_DHCP4_OPTION_MAXIMUM_MESSAGE_SIZE ∧
     optFirst (n_dhcp4_c_connection_reboot_msg conn client xid secs)
        N_DHCP4_OPTION_MAXIMUM_MESSAGE_SIZE =
      optFirst (n_dhcp4_c_connection_new_message conn N_DHCP4_MESSAGE_REQUEST)
        N_DHCP4_OPTION_MAXIMUM_MESSAGE_SIZE) ∧
    (optCount (n_dhcp4_c_connection_renew_msg conn xid secs)
        N_DHCP4_OPTION_MAXIMUM_MESSAGE_SIZE =
      optCount (n_dhcp4_c_connection_new_message conn N_DHCP4_MESSAGE_REQUEST)
        N_DHCP4_OPTION_MAXIMUM_MESSAGE_SIZE ∧
     optFirst (n_dhcp4_c_connection_renew_msg conn xid secs)
        N_DHCP4_OPTION_MAXIMUM_MESSAGE_SIZE =
      optFirst (n_dhcp4_c_connection_new_message conn N_DHCP4_MESSAGE_REQUEST)
        N_DHCP4_OPTION_MAXIMUM_MESSAGE_SIZE ∧
     optCount (n_dhcp4_c_connection_rebind_msg conn xid secs)
        N_DHCP4_OPTION_MAXIMUM_MESSAGE_SIZE =
      optCount (n_dhcp4_c_connection_new_message conn N_DHCP4_MESSAGE_REQUEST)
        N_DHCP4_OPTION_MAXIMUM_MESSAGE_SIZE ∧
     optFirst (n_dhcp4_c_connection_rebind_msg conn xid secs)
        N_DHCP4_OPTION_MAXIMUM_MESSAGE_SIZE =
      optFirst (n_dhcp4_c_connection_new_message conn N_DHCP4_MESSAGE_REQUEST)
        N_DHCP4_OPTION_MAXIMUM_MESSAGE_SIZE ∧
     optCount (n_dhcp4_c_connection_inform_msg conn xid secs)
        N_DHCP4_OPTION_MAXIMUM_MESSAGE_SIZE =
      optCount (n_dhcp4_c_connection_new_message conn N_DHCP4_MESSAGE_INFORM)
        N_DHCP4_OPTION_MAXIMUM_MESSAGE_SIZE ∧
     optFirst (n_dhcp4_c_connection_inform_msg conn xid secs)
        N_DHCP4_OPTION_MAXIMUM_MESSAGE_SIZE =
      optFirst (n_dhcp4_c_connection_new_message conn N_DHCP4_MESSAGE_INFORM)
        N_DHCP4_OPTION_MAXIMUM_MESSAGE_SIZE) ∧
    (optCount (n_dhcp4_c_connection_decline_msg conn error client server)
        N_DHCP4_OPTION_MAXIMUM_MESSAGE_SIZE = 0 ∧
     optCount (n_dhcp4_c_connection_release_msg conn error)
        N_DHCP4_OPTION_MAXIMUM_MESSAGE_SIZE = 0) := by
  refine ⟨new_message_count57 conn type, new_message_first57 conn type,
          ⟨rfl, rfl⟩, ?_, ?_, ⟨rfl, rfl, rfl, rfl, rfl, rfl⟩, ?_, ?_⟩
  · constructor
    · unfold n_dhcp4_c_connection_select_msg
      rw [optCount_append, optCount_append, optCount_set_xid]
      simp [N_DHCP4_OPTION_REQUESTED_IP_ADDRESS, N_DHCP4_OPTION_SERVER_IDENTIFIER,
            N_DHCP4_OPTION_MAXIMUM_MESSAGE_SIZE]
    · unfold n_dhcp4_c_connection_select_msg
      rw [optFirst_append_ne _ _ _ _ (by decide), optFirst_append_ne _ _ _ _ (by decide),
          optFirst_set_xid]
  · constructor
    · unfold n_dhcp4_c_connection_reboot_msg
      rw [optCount_append, optCount_set_xid]
      simp [N_DHCP4_OPTION_REQUESTED_IP_ADDRESS, N_DHCP4_OPTION_MAXIMUM_MESSAGE_SIZE]
    · unfold n_dhcp4_c_connection_reboot_msg
      rw [optFirst_append_ne _ _ _ _ (by decide), optFirst_set_xid]
  · cases error with
    | none =>
        unfold n_dhcp4_c_connection_decline_msg
        rw [optCount_append, optCount_append, new_message_count57]
        simp [N_DHCP4_OPTION_REQUESTED_IP_ADDRESS, N_DHCP4_OPTION_SERVER_IDENTIFIER,
              N_DHCP4_OPTION_MAXIMUM_MESSAGE_SIZE, N_DHCP4_MESSAGE_DECLINE,
              N_DHCP4_MESSAGE_DISCOVER, N_DHCP4_MESSAGE_REQUEST, N_DHCP4_MESSAGE_INFORM]
    | some e =>
        unfold n_dhcp4_c_connection_decline_msg
        rw [optCount_append, optCount_append, optCount_append, new_message_count57]
        simp [N_DHCP4_OPTION_REQUESTED_IP_ADDRESS, N_DHCP4_OPTION_SERVER_IDENTIFIER,
              N_DHCP4_OPTION_ERROR_MESSAGE,
              N_DHCP4_OPTION_MAXIMUM_MESSAGE_SIZE, N_DHCP4_MESSAGE_DECLINE,
              N_DHCP4_MESSAGE_DISCOVER, N_DHCP4_MESSAGE_REQUEST, N_DHCP4_MESSAGE_INFORM]
  · cases error with
    | none =>
        unfold n_dhcp4_c_connection_release_msg
        rw [optCount_append, new_message_count57]
        simp [N_DHCP4_OPTION_SERVER_IDENTIFIER, N_DHCP4_OPTION_MAXIMUM_MESSAGE_SIZE,
              N_DHCP4_MESSAGE_RELEASE, N_DHCP4_MESSAGE_DISCOVER,
              N_DHCP4_MESSAGE_REQUEST, N_DHCP4_MESSAGE_INFORM]
    | some e =>
        unfold n_dhcp4_c_connection_release_msg
        rw [optCount_append, optCount_append, new_message_count57]
        simp [N_DHCP4_OPTION_SERVER_IDENTIFIER, N_DHCP4_OPTION_ERROR_MESSAGE,
              N_DHCP4_OPTION_MAXIMUM_MESSAGE_SIZE, N_DHCP4_MESSAGE_RELEASE,
              N_DHCP4_MESSAGE_DISCOVER, N_DHCP4_MESSAGE_REQUEST, N_DHCP4_MESSAGE_INFORM]

/-- Claim C10: RENEW and REBIND messages carry no SERVER_IDENTIFIER option;
SELECT, DECLINE and RELEASE messages carry exactly one, whose value is the
given server address for SELECT and DECLINE and the connection's cached
`siaddr` for RELEASE. -/
theorem server_identifier_option_policy (conn : NDhcp4CConnection)
    (client server xid secs : Nat) (error : Option (List Nat)) :
    optCount (n_dhcp4_c_connection_renew_msg conn xid secs)
      N_DHCP4_OPTION_SERVER_IDENTIFIER = 0 ∧
    optCount (n_dhcp4_c_connection_rebind_msg conn xid secs)
      N_DHCP4_OPTION_SERVER_IDENTIFIER = 0 ∧
    optCount (n_dhcp4_c_connection_select_msg conn client server xid secs)
      N_DHCP4_OPTION_SERVER_IDENTIFIER = 1 ∧
    optFirst (n_dhcp4_c_connection_select_msg conn client server xid secs)
      N_DHCP4_OPTION_SERVER_IDENTIFIER = some (u32be server) ∧
    optCount (n_dhcp4_c_connection_decline_msg conn error client server)
      N_DHCP4_OPTION_SERVER_IDENTIFIER = 1 ∧
    optFirst (n_dhcp4_c_connection_decline_msg conn error client server)
      N_DHCP4_OPTION_SERVER_IDENTIFIER = some (u32be server) ∧
    optCount (n_dhcp4_c_connection_release_msg conn error)
      N_DHCP4_OPTION_SERVER_IDENTIFIER = 1 ∧
    optFirst (n_dhcp4_c_connection_release_msg conn error)
      N_DHCP4_OPTION_SERVER_IDENTIFIER = some (u32be conn.siaddr) := by
  refine ⟨?_, ?_, ?_, ?_, ?_, ?_, ?_, ?_⟩
  · unfold n_dhcp4_c_connection_renew_msg
    rw [optCount_set_xid]
    exact (new_message_54 conn _).1
  · unfold n_dhcp4_c_connection_rebind_msg
    rw [optCount_set_xid]
    exact (new_message_54 conn _).1
  · unfold n_dhcp4_c_connection_select_msg
    rw [optCount_append, optCount_append, optCount_set_xid, (new_message_54 conn _).1]
    simp [N_DHCP4_OPTION_REQUESTED_IP_ADDRESS, N_DHCP4_OPTION_SERVER_IDENTIFIER]
  · unfold n_dhcp4_c_connection_select_msg
    rw [optFirst_append_self_of_none]
    rw [optFirst_append_ne _ _ _ _ (by decide), optFirst_set_xid]
    exact (new_message_54 conn _).2
  · cases error with
    | none =>
        unfold n_dhcp4_c_connection_decline_msg
        rw [optCount_append, optCount_append, (new_message_54 conn _).1]
        simp [N_DHCP4_OPTION_REQUESTED_IP_ADDRESS, N_DHCP4_OPTION_SERVER_IDENTIFIER]
    | some e =>
        unfold n_dhcp4_c_connection_decline_msg
        rw [optCount_append, optCount_append, optCount_append,
            (new_message_54 conn _).1]
        simp [N_DHCP4_OPTION_REQUESTED_IP_ADDRESS, N_DHCP4_OPTION_SERVER_IDENTIFIER,
              N_DHCP4_OPTION_ERROR_MESSAGE]
  · cases error with
    | none =>
        unfold n_dhcp4_c_connection_decline_msg
        rw [optFirst_append_self_of_none]
        rw [optFirst_append_ne _ _ _ _ (by decide)]
        exact (new_message_54 conn _).2
    | some e =>
        unfold n_dhcp4_c_connection_decline_msg
        rw [optFirst_append_ne _ _ _ _ (by decide)]
        rw [optFirst_append_self_of_none]
        rw [optFirst_append_ne _ _ _ _ (by decide)]
        exact (new_message_54 conn _).2
  · cases error with
    | none =>
        unfold n_dhcp4_c_connection_release_msg
        rw [optCount_append, (new_message_54 conn _).1]
        simp [N_DHCP4_OPTION_SERVER_IDENTIFIER]
    | some e =>
        unfold n_dhcp4_c_connection_release_msg
        rw [optCount_append, optCount_append, (new_message_54 conn _).1]
        simp [N_DHCP4_OPTION_SERVER_IDENTIFIER, N_DHCP4_OPTION_ERROR_MESSAGE]
  · cases error with
    | none =>
        unfold n_dhcp4_c_connection_release_msg
        rw [optFirst_append_self_of_none]
        exact (new_message_54 conn _).2
    | some e =>
        unfold n_dhcp4_c_connection_release_msg
        rw [optFirst_append_ne _ _ _ _ (by decide)]
        rw [optFirst_append_self_of_none]
        exact (new_message_54 conn _).2

end NDhcp4
